import Mathlib

/-!
Shallow embedding of the `AuthService` of this repository (source file
`src/unnamed/part_000`, a NestJS service) together with the DTO
`src/src/auth/dto/register-user.dto.ts`.

Modelling conventions:
* A Mongoose user document is `UserDoc`; `toJSON` is rendered as an
  association list of string fields, and the JS rest-destructuring
  `const { password, ...rest } = doc.toJSON()` is `omitKey "password"`.
* The database behind `userModel` is a list of documents; `save` with the
  unique index on `email` is `saveDoc`, `findOne {email}` is `List.find?`,
  `findById` is `List.find?` on `_id`, `find {email}` is `List.filter`.
* The external `bcryptjs` library is modelled by its documented contract:
  `hashSync` is an injective tagged encoding of the plaintext and
  `compareSync` succeeds exactly on the matching plaintext.
* The external `jwtService.sign` is modelled as an injective tagging of the
  payload id (`getJwtToken`).
* Thrown exceptions become `Except` values: NestJS `HttpException`s are the
  constructors of `HttpException`; a raw JavaScript `TypeError` (as raised
  by dereferencing `null`) is the separate constructor
  `ThrownError.jsTypeError`, since it is not part of the Nest taxonomy.
* `Math.random()`-driven code takes the stream of random draws as an
  explicit argument `rand : Nat → Nat`; draw `x` selects index
  `rand x % banco.length`, the image of `Math.floor(Math.random() * banco.length)`.
* `console.log` output is made explicit: `register` returns the list of
  logged strings alongside its result.
-/

namespace AuthService

/-- A user document as persisted by the Mongoose model (fields used by the
service: `_id`, `name`, `email`, `password` where `password` holds the
bcrypt hash). -/
structure UserDoc where
  id : String
  name : String
  email : String
  password : String
  deriving Repr, DecidableEq

/-- The database behind `userModel`: the list of stored documents. -/
abbrev Db := List UserDoc

/-- CreateUserDto: `{ name, email, password }` (plaintext password). -/
structure CreateUserDto where
  name : String
  email : String
  password : String
  deriving Repr, DecidableEq

/-- RegisterUserDto (src/src/auth/dto/register-user.dto.ts): `name`,
`email` (MinLength 3), `password` (MinLength 6). -/
structure RegisterUserDto where
  name : String
  email : String
  password : String
  deriving Repr, DecidableEq

/-- LoginDto: `{ email, password }`. -/
structure LoginDto where
  email : String
  password : String
  deriving Repr, DecidableEq

/-- NestJS HttpExceptions thrown by the service, each carrying its
message. -/
inductive HttpException where
  | badRequest (message : String)
  | internalServerError (message : String)
  | unauthorized (message : String)
  | notFound (message : String)
  deriving Repr, DecidableEq

/-- Anything the service can throw: a NestJS `HttpException`, or a raw
JavaScript `TypeError` (e.g. from calling a method on `null`), which is not
one of the Nest taxonomy values. -/
inductive ThrownError where
  | http (e : HttpException)
  | jsTypeError (message : String)
  deriving Repr, DecidableEq

/-- A MongoDB server error as seen in the service's `catch` blocks: only
its `code` property is inspected (`error.code === 11000` for a duplicate
key); a non-Mongo failure has no `code` (`none`). -/
structure StoreError where
  code : Option Nat
  deriving Repr, DecidableEq

/-- The rendering `doc.toJSON()` used throughout the service, as an
association list of the stored fields. -/
def UserDoc.toJSON (u : UserDoc) : List (String × String) :=
  [("_id", u.id), ("name", u.name), ("email", u.email), ("password", u.password)]

/-- JS rest-destructuring `const { k, ...rest } = j` : `rest` keeps every
field of `j` except `k`. -/
def omitKey (k : String) (j : List (String × String)) : List (String × String) :=
  j.filter (fun kv => kv.1 != k)

/-- A JSON view carries no `password` field. -/
def noPasswordKey (j : List (String × String)) : Bool :=
  j.all (fun kv => kv.1 != "password")

/-- Model of the external `bcryptjs.hashSync(password, cost)`: a salted
one-way hash, abstracted as an injective tagged encoding of the plaintext
(the algorithm itself lives in the external library, outside this
repository). -/
def hashSync (password : String) (cost : Nat) : String :=
  "$2a$" ++ toString cost ++ "$" ++ password

/-- Model of the external `bcryptjs.compareSync(password, hash)`:
verification succeeds exactly when `hash` was produced from `password`
(bcrypt's documented contract; the service only ever hashes with cost 10). -/
def compareSync (password hash : String) : Bool :=
  hash == hashSync password 10

/-- Model of the external `jwtService.sign({ id })`: an opaque signed token
determined by the payload id. -/
def getJwtToken (id : String) : String :=
  "signed." ++ id

/-- The store's `newUser.save()` on a model with a unique index on `email`:
a duplicate email is rejected with the MongoDB duplicate-key error
(code 11000); otherwise the document is appended. -/
def saveDoc (db : Db) (doc : UserDoc) : Except StoreError Db :=
  if db.any (fun u => u.email == doc.email) then .error { code := some 11000 }
  else .ok (db ++ [doc])

/-- The document built by `create`: `new this.userModel({ password:
bcryptjs.hashSync(password, 10), ...userData })`, with the store-assigned
id made explicit. -/
def newUserDoc (newId : String) (dto : CreateUserDto) : UserDoc :=
  { id := newId
    name := dto.name
    email := dto.email
    password := hashSync dto.password 10 }

/-- The `catch` block of `AuthService.create` (part_000 lines 44-50): a
store error with `code === 11000` becomes
`BadRequestException(email + " already exist!")`; anything else becomes
`InternalServerErrorException("Something went wrong with the server!")`. -/
def handleCreateError (email : String) (e : StoreError) : HttpException :=
  if e.code == some 11000 then .badRequest (email ++ " already exist!")
  else .internalServerError "Something went wrong with the server!"

/-- `AuthService.create` (part_000 lines 27-51): hash the password, save
the document, return `newUser.toJSON()` without its `password` field; map
store failures through the `catch` block. The resulting database is
returned alongside (unchanged when the save failed). -/
def create (db : Db) (newId : String) (dto : CreateUserDto) :
    Except HttpException (List (String × String)) × Db :=
  let doc := newUserDoc newId dto
  match saveDoc db doc with
  | .ok db2 => (.ok (omitKey "password" doc.toJSON), db2)
  | .error e => (.error (handleCreateError dto.email e), db)

/-- Modelled from the spec: `CreateUserDto`
(src/auth/dto/create-user.dto.ts) and the global `ValidationPipe` are not
under src/. The spec states that create "rejects empty/too-short secrets
(`secret length < 6` → `WeakSecret`)", matching the `MinLength(6)` on
`password` that `RegisterUserDto` (which is under src/) carries; the
rejection is the class-validator BadRequest with its standard message. -/
def validatePassword (dto : CreateUserDto) : Option HttpException :=
  if dto.password.length < 6 then
    some (.badRequest "password must be longer than or equal to 6 characters")
  else none

/-- The create operation as reached by a caller: DTO validation (modelled
from the spec, see `validatePassword`) followed by `AuthService.create`. -/
def createEndpoint (db : Db) (newId : String) (dto : CreateUserDto) :
    Except HttpException (List (String × String)) × Db :=
  match validatePassword dto with
  | some e => (.error e, db)
  | none => create db newId dto

/-- `AuthService.login` (part_000 lines 86-105): `findOne {email}`; a
missing user and a failing `compareSync` both throw
`UnauthorizedException("Not valid credentials")`; on success return the
password-stripped user and a token for its id. -/
def login (db : Db) (dto : LoginDto) :
    Except HttpException (List (String × String) × String) :=
  match db.find? (fun u => u.email == dto.email) with
  | none => .error (.unauthorized "Not valid credentials")
  | some user =>
    if compareSync dto.password user.password then
      .ok (omitKey "password" user.toJSON, getJwtToken user.id)
    else
      .error (.unauthorized "Not valid credentials")

/-- `AuthService.findAll` (part_000 lines 111-117): every stored document,
each with its `password` field destructured away. -/
def findAll (db : Db) : List (List (String × String)) :=
  db.map (fun u => omitKey "password" u.toJSON)

/-- `AuthService.searchEmail` (part_000 lines 123-133): an empty (falsy)
email returns `[]`; otherwise `find {email}` and, for each match,
destructure `{ email, ...rest }` and return only `{ email }` (the matched
document's email — `rest` is discarded). -/
def searchEmail (db : Db) (email : String) : List (List (String × String)) :=
  if email = "" then []
  else (db.filter (fun u => u.email == email)).map (fun u => [("email", u.email)])

/-- `AuthService.findUserById` (part_000 lines 140-145): `findById(id)`
followed unconditionally by `user.toJSON()`; when no user exists, `user` is
`null` and the property access raises a raw JavaScript `TypeError` (there
is no null check in this method — only in the commented-out `findOne`). -/
def findUserById (db : Db) (id : String) :
    Except ThrownError (List (String × String)) :=
  match db.find? (fun u => u.id == id) with
  | none => .error (.jsTypeError "Cannot read properties of null (reading toJSON)")
  | some u => .ok (omitKey "password" u.toJSON)

/-- The character bank of `createRandomPassword`: upper + lower + digit. -/
def banco : String :=
  "ABCDEFGHIJKLMNOPQRSTUVWXYZabcdefghijklmnopqrstuvwxyz0123456789"

/-- `AuthService.createRandomPassword` (part_000 lines 177-186): `longitud`
characters drawn from `banco` at index `Math.floor(Math.random() * banco.length)`;
the stream of random draws is the explicit argument `rand`, reduced modulo
`banco.length` to model the range of the JS expression. -/
def createRandomPassword (rand : Nat → Nat) (longitud : Nat) : String :=
  String.mk ((List.range longitud).map
    (fun x => banco.toList.getD (rand x % banco.length) 'A'))

/-- The `LoginResponse` returned by `register` and `login` at the interface
level: the (password-stripped) user JSON and the token. -/
structure LoginResponse where
  user : List (String × String)
  token : String
  deriving Repr, DecidableEq

/-- `AuthService.register` (part_000 lines 58-79): generate an 8-character
random password, `console.log` it, then call `this.create({ password,
...registerUserDto })`. Because the object spread copies `registerUserDto`'s
own properties after the generated `password`, and `RegisterUserDto`
declares a (validated, hence present) `password` field, the request's
password overrides the generated one. The `catch` rethrows a 400 with its
message and wraps anything else as
`InternalServerErrorException("Internal server error")`. The returned
triple is (result, database afterwards, console log). -/
def register (db : Db) (newId : String) (rand : Nat → Nat) (r : RegisterUserDto) :
    Except HttpException LoginResponse × Db × List String :=
  let generated := createRandomPassword rand 8
  let consoleLog := [generated]
  let dto : CreateUserDto := { name := r.name, email := r.email, password := r.password }
  match create db newId dto with
  | (.ok user, db2) =>
      (.ok { user := user, token := getJwtToken newId }, db2, consoleLog)
  | (.error (.badRequest m), db2) =>
      (.error (.badRequest m), db2, consoleLog)
  | (.error _, db2) =>
      (.error (.internalServerError "Internal server error"), db2, consoleLog)

/-- Modelled from the spec: the Mongoose `User` schema
(src/auth/entities/user.entity.ts) is imported by the service but absent
from src/. The spec states the identity key is case-normalized
(case-folded); the schema therefore lowercases `email` both on store and on
query (Mongoose `lowercase: true` runs the setter on saved documents and on
query filters). -/
def normalizeKey (key : String) : String :=
  String.mk (key.toList.map Char.toLower)

/-- The document `create` saves under the case-normalizing schema: same as
`newUserDoc` with the email case-folded by the schema setter. -/
def newUserDocNorm (newId : String) (dto : CreateUserDto) : UserDoc :=
  { newUserDoc newId dto with email := normalizeKey dto.email }

/-- `AuthService.create` running against the case-normalizing schema
(`normalizeKey` applied to the stored email by the schema setter). -/
def createNorm (db : Db) (newId : String) (dto : CreateUserDto) :
    Except HttpException (List (String × String)) × Db :=
  let doc := newUserDocNorm newId dto
  match saveDoc db doc with
  | .ok db2 => (.ok (omitKey "password" doc.toJSON), db2)
  | .error e => (.error (handleCreateError dto.email e), db)

/-- `findOne {email}` against the case-normalizing schema: the query value
goes through the same lowercasing setter. -/
def findOneNorm (db : Db) (email : String) : Option UserDoc :=
  db.find? (fun u => u.email == normalizeKey email)

end AuthService

namespace AuthService

/-- Helper: a JSON view produced by destructuring away the `password` field
carries no `password` field. -/
theorem noPasswordKey_omitKey (j : List (String × String)) :
    noPasswordKey (omitKey "password" j) = true := by
  simp only [noPasswordKey, omitKey, List.all_eq_true, List.mem_filter]
  intro kv h
  exact h.2

/-- Helper: `find?` skips a whole prefix on which the predicate is false. -/
theorem find?_append_of_all_neg {α : Type} (p : α → Bool) (l l2 : List α)
    (h : ∀ u ∈ l, p u = false) : (l ++ l2).find? p = l2.find? p := by
  induction l with
  | nil => rfl
  | cons a t ih =>
    rw [List.cons_append,
      List.find?_cons_of_neg _ (by simp [h a (List.mem_cons_self a t)])]
    exact ih (fun u hu => h u (List.mem_cons_of_mem a hu))

/-- Helper: if every element's email differs from `e`, the duplicate check
of `saveDoc` comes out false. -/
theorem any_email_eq_false (db : Db) (e : String)
    (h : db.all (fun u => u.email != e) = true) :
    db.any (fun u => u.email == e) = false := by
  simp only [List.all_eq_true, bne_iff_ne, ne_eq] at h
  simp only [List.any_eq_false]
  intro u hu
  simp [h u hu]

/-- Claim C9: `searchEmail` called with the empty query returns the empty
sequence, not all accounts. -/
theorem searchEmail_empty_query (db : Db) : searchEmail db "" = [] := by
  unfold searchEmail
  rw [if_pos rfl]

/-- Claim C10: a login failure caused by an unknown identity key and one
caused by a wrong password produce the identical error — the same
`UnauthorizedException` with the same message "Not valid credentials" — so
the error does not reveal which condition occurred. -/
theorem login_failures_indistinguishable (db : Db) (dto : LoginDto) :
    (db.find? (fun u => u.email == dto.email) = none →
      login db dto = .error (.unauthorized "Not valid credentials")) ∧
    (∀ u, db.find? (fun u => u.email == dto.email) = some u →
      compareSync dto.password u.password = false →
      login db dto = .error (.unauthorized "Not valid credentials")) := by
  constructor
  · intro h
    unfold login
    rw [h]
  · intro u h hc
    unfold login
    rw [h]
    simp [hc]

/-- Witness for C10: concretely, the unknown-email failure and the
wrong-password failure return the very same error value. -/
theorem login_failures_indistinguishable_witness :
    login [] { email := "alice@example.com", password := "secret99" } =
      .error (.unauthorized "Not valid credentials") ∧
    login [{ id := "u1", name := "Alice", email := "alice@example.com",
             password := "$2a$10$secret99" }]
        { email := "alice@example.com", password := "wrongpass" } =
      .error (.unauthorized "Not valid credentials") := by
  constructor
  · exact (login_failures_indistinguishable [] _).1 rfl
  · exact (login_failures_indistinguishable
      [{ id := "u1", name := "Alice", email := "alice@example.com",
         password := "$2a$10$secret99" }] _).2
      { id := "u1", name := "Alice", email := "alice@example.com",
        password := "$2a$10$secret99" } rfl rfl

end AuthService

namespace AuthService

/-- Claim C1: for every account and every lookup or creation operation
(`create` — as reached through the endpoint —, `login`, `findAll`,
`findUserById`, `searchEmail`), the value returned to the caller never
contains the `password` field (hashed or plaintext secret): it is stripped
from every outward-facing view, unconditionally. -/
theorem views_strip_password (db : Db) (nid id q : String)
    (dto : CreateUserDto) (ldto : LoginDto) :
    (∀ j, (createEndpoint db nid dto).1 = .ok j → noPasswordKey j = true) ∧
    (∀ j t, login db ldto = .ok (j, t) → noPasswordKey j = true) ∧
    (∀ j ∈ findAll db, noPasswordKey j = true) ∧
    (∀ j, findUserById db id = .ok j → noPasswordKey j = true) ∧
    (∀ j ∈ searchEmail db q, noPasswordKey j = true) := by
  refine ⟨?_, ?_, ?_, ?_, ?_⟩
  · intro j h
    simp only [createEndpoint, create] at h
    split at h
    · simp at h
    · split at h
      · simp only [] at h
        obtain h := h.symm
        simp only [Except.ok.injEq] at h
        subst h
        exact noPasswordKey_omitKey _
      · simp at h
  · intro j t h
    unfold login at h
    split at h
    · simp at h
    · split at h
      · simp only [Except.ok.injEq, Prod.mk.injEq] at h
        obtain ⟨h1, h2⟩ := h
        subst h1
        exact noPasswordKey_omitKey _
      · simp at h
  · intro j hj
    simp only [findAll, List.mem_map] at hj
    obtain ⟨u, hu, rfl⟩ := hj
    exact noPasswordKey_omitKey _
  · intro j h
    unfold findUserById at h
    split at h
    · simp at h
    · simp only [Except.ok.injEq] at h
      subst h
      exact noPasswordKey_omitKey _
  · intro j hj
    unfold searchEmail at hj
    split at hj
    · simp at hj
    · simp only [List.mem_map] at hj
      obtain ⟨u, hu, rfl⟩ := hj
      rfl

/-- Witness for C1: the concrete views produced by each of the five
operations on a concrete database carry no password field. -/
theorem views_strip_password_witness :
    noPasswordKey [("_id", "u2"), ("name", "Bob"), ("email", "bob@example.com")] = true ∧
    noPasswordKey [("_id", "u1"), ("name", "Alice"), ("email", "alice@example.com")] = true ∧
    noPasswordKey [("_id", "u3"), ("name", "Carol"), ("email", "carol@example.com")] = true ∧
    noPasswordKey [("email", "alice@example.com")] = true := by
  refine ⟨?_, ?_, ?_, ?_⟩
  · exact (views_strip_password
      [{ id := "u1", name := "Alice", email := "alice@example.com",
         password := "$2a$10$secret99" }] "u2" "u3" "alice@example.com"
      { name := "Bob", email := "bob@example.com", password := "hunter22" }
      { email := "alice@example.com", password := "secret99" }).1
      [("_id", "u2"), ("name", "Bob"), ("email", "bob@example.com")] rfl
  · exact (views_strip_password
      [{ id := "u1", name := "Alice", email := "alice@example.com",
         password := "$2a$10$secret99" }] "u2" "u3" "alice@example.com"
      { name := "Bob", email := "bob@example.com", password := "hunter22" }
      { email := "alice@example.com", password := "secret99" }).2.1
      [("_id", "u1"), ("name", "Alice"), ("email", "alice@example.com")]
      "signed.u1" rfl
  · exact (views_strip_password
      [{ id := "u3", name := "Carol", email := "carol@example.com",
         password := "$2a$10$pass123" }] "u2" "u3" "carol@example.com"
      { name := "Bob", email := "bob@example.com", password := "hunter22" }
      { email := "carol@example.com", password := "pass123" }).2.2.2.1
      [("_id", "u3"), ("name", "Carol"), ("email", "carol@example.com")] rfl
  · exact (views_strip_password
      [{ id := "u1", name := "Alice", email := "alice@example.com",
         password := "$2a$10$secret99" }] "u2" "u3" "alice@example.com"
      { name := "Bob", email := "bob@example.com", password := "hunter22" }
      { email := "alice@example.com", password := "secret99" }).2.2.2.2
      [("email", "alice@example.com")] (by decide)

/-- Claim C2: for every valid input with secret length at least 6 (and a
fresh identity key, so the insert succeeds), creation stores
`hashSync(password, 10)` as the account's hash, and verifying the same
plaintext against that stored hash with `compareSync` returns true. -/
theorem create_hash_roundtrip (db : Db) (nid : String) (dto : CreateUserDto)
    (hlen : 6 ≤ dto.password.length)
    (hfresh : db.all (fun u => u.email != dto.email) = true) :
    (createEndpoint db nid dto).1 =
      .ok (omitKey "password" (newUserDoc nid dto).toJSON) ∧
    (createEndpoint db nid dto).2 = db ++ [newUserDoc nid dto] ∧
    compareSync dto.password (newUserDoc nid dto).password = true := by
  have hv : validatePassword dto = none := by
    unfold validatePassword
    rw [if_neg (Nat.not_lt.mpr hlen)]
  have hany := any_email_eq_false db dto.email hfresh
  refine ⟨?_, ?_, ?_⟩ <;>
    simp [createEndpoint, create, saveDoc, newUserDoc, hv, hany, compareSync]

/-- Witness for C2: a concrete creation on an empty database stores a hash
that the original plaintext verifies against. -/
theorem create_hash_roundtrip_witness :
    (createEndpoint [] "u1"
        { name := "Alice", email := "alice@example.com", password := "secret99" }).2 =
      [newUserDoc "u1"
        { name := "Alice", email := "alice@example.com", password := "secret99" }] ∧
    compareSync "secret99"
      (newUserDoc "u1"
        { name := "Alice", email := "alice@example.com", password := "secret99" }).password
      = true := by
  have h := create_hash_roundtrip [] "u1"
    { name := "Alice", email := "alice@example.com", password := "secret99" }
    (by decide) rfl
  exact ⟨h.2.1, h.2.2⟩

/-- Claim C3: a store rejection with the duplicate-key code 11000 surfaces
as the account-already-exists `BadRequestException` naming the identity
key; a store failure with any other (or no) error code surfaces as
`InternalServerErrorException("Something went wrong with the server!")` —
the raw store error is never returned. In the database model, inserting an
already-present identity key produces exactly the duplicate-key outcome. -/
theorem create_error_taxonomy (db : Db) (nid : String) (dto : CreateUserDto)
    (e : StoreError) :
    (e.code = some 11000 →
      handleCreateError dto.email e = .badRequest (dto.email ++ " already exist!")) ∧
    (e.code ≠ some 11000 →
      handleCreateError dto.email e =
        .internalServerError "Something went wrong with the server!") ∧
    (∀ u ∈ db, u.email = dto.email →
      create db nid dto =
        (.error (.badRequest (dto.email ++ " already exist!")), db)) := by
  refine ⟨?_, ?_, ?_⟩
  · intro h
    simp [handleCreateError, h]
  · intro h
    simp [handleCreateError, h]
  · intro u hu he
    have hany : db.any (fun v => v.email == (newUserDoc nid dto).email) = true :=
      List.any_eq_true.mpr ⟨u, hu, by simp [newUserDoc, he]⟩
    simp [create, saveDoc, hany, handleCreateError]

/-- Witness for C3: the duplicate-key code maps to the naming BadRequest, a
codeless failure maps to the internal-server error, and a concrete
duplicate insert returns the naming BadRequest with the database
unchanged. -/
theorem create_error_taxonomy_witness :
    handleCreateError "alice@example.com" { code := some 11000 } =
      .badRequest "alice@example.com already exist!" ∧
    handleCreateError "alice@example.com" { code := none } =
      .internalServerError "Something went wrong with the server!" ∧
    create [{ id := "u1", name := "Alice", email := "alice@example.com",
              password := "$2a$10$secret99" }] "u9"
        { name := "Alice2", email := "alice@example.com", password := "hunter22" } =
      (.error (.badRequest "alice@example.com already exist!"),
       [{ id := "u1", name := "Alice", email := "alice@example.com",
          password := "$2a$10$secret99" }]) := by
  refine ⟨?_, ?_, ?_⟩
  · exact (create_error_taxonomy [] "u9"
      { name := "Alice2", email := "alice@example.com", password := "hunter22" }
      { code := some 11000 }).1 rfl
  · exact (create_error_taxonomy [] "u9"
      { name := "Alice2", email := "alice@example.com", password := "hunter22" }
      { code := none }).2.1 (by decide)
  · exact (create_error_taxonomy
      [{ id := "u1", name := "Alice", email := "alice@example.com",
         password := "$2a$10$secret99" }] "u9"
      { name := "Alice2", email := "alice@example.com", password := "hunter22" }
      { code := none }).2.2
      { id := "u1", name := "Alice", email := "alice@example.com",
        password := "$2a$10$secret99" } (by decide) rfl

/-- Claim C4: an input whose plaintext secret is shorter than 6 characters
(in particular the empty secret) is rejected with the weak-secret
BadRequest and no account is created — the database is unchanged. -/
theorem create_rejects_short_password (db : Db) (nid : String)
    (dto : CreateUserDto) (hshort : dto.password.length < 6) :
    createEndpoint db nid dto =
      (.error (.badRequest "password must be longer than or equal to 6 characters"),
       db) := by
  simp [createEndpoint, validatePassword, hshort]

/-- Witness for C4: a concrete 3-character secret is rejected and the
database stays empty. -/
theorem create_rejects_short_password_witness :
    createEndpoint [] "u1"
        { name := "Alice", email := "alice@example.com", password := "abc" } =
      (.error (.badRequest "password must be longer than or equal to 6 characters"),
       []) :=
  create_rejects_short_password [] "u1"
    { name := "Alice", email := "alice@example.com", password := "abc" } (by decide)

end AuthService

namespace AuthService

/-- Claim C5 (code bug): `findUserById` on an id for which no account
exists does not fail with the NotFound taxonomy error — it dereferences the
`null` lookup result and raises a raw JavaScript `TypeError`. Shown on the
empty database and on a database whose only account has a different id. -/
theorem findUserById_missing_raises_typeError :
    findUserById [] "651fa0c2b2d1e934d8a40000" =
      .error (.jsTypeError "Cannot read properties of null (reading toJSON)") ∧
    findUserById
        [{ id := "u1", name := "Alice", email := "alice@example.com",
           password := "$2a$10$secret99" }] "u2" =
      .error (.jsTypeError "Cannot read properties of null (reading toJSON)") ∧
    findUserById [] "651fa0c2b2d1e934d8a40000" ≠
      .error (.http (.notFound "Not Found")) := by
  refine ⟨rfl, rfl, by simp [findUserById]⟩

/-- Claim C6 (code bug): on a concrete run of `register` (random draws
0,1,2,... so the generated secret is "ABCDEFGH"), the generated secret is
written to the console log, it appears nowhere in the returned
`LoginResponse`, and the stored document's hash is derived from the
request's `password` field ("secret99"), which the object spread lets
override the generated one. -/
theorem register_logs_and_drops_generated_secret :
    register [] "u1" (fun x => x)
        { name := "Alice", email := "alice@example.com", password := "secret99" } =
      (.ok { user := [("_id", "u1"), ("name", "Alice"), ("email", "alice@example.com")],
             token := "signed.u1" },
       [{ id := "u1", name := "Alice", email := "alice@example.com",
          password := "$2a$10$secret99" }],
       ["ABCDEFGH"]) := by
  rfl

/-- Claim C7 (code bug): `searchEmail` on a non-empty key that matches a
stored account returns only the `email` field for the match — not the full
public view with id, name and the other fields (the destructured `rest` is
discarded by the source). -/
theorem searchEmail_returns_only_email_field :
    searchEmail
        [{ id := "u1", name := "Alice", email := "alice@example.com",
           password := "$2a$10$secret99" }] "alice@example.com" =
      [[("email", "alice@example.com")]] := by
  rfl

/-- Claim C8: under the case-normalizing schema (modelled from the spec,
see `normalizeKey`), creation stores the case-folded identity key, and any
key that case-folds to the same value finds that same account — two
identity keys differing only in letter case denote the same account. -/
theorem identityKey_case_normalized (db : Db) (nid : String)
    (dto : CreateUserDto) (key : String)
    (hfresh : db.all (fun u => u.email != normalizeKey dto.email) = true)
    (hcase : normalizeKey key = normalizeKey dto.email) :
    (createNorm db nid dto).2 = db ++ [newUserDocNorm nid dto] ∧
    (newUserDocNorm nid dto).email = normalizeKey dto.email ∧
    findOneNorm (db ++ [newUserDocNorm nid dto]) key =
      some (newUserDocNorm nid dto) := by
  have hany : db.any (fun u => u.email == (newUserDocNorm nid dto).email) = false := by
    have h := any_email_eq_false db (normalizeKey dto.email) hfresh
    simpa [newUserDocNorm, newUserDoc] using h
  refine ⟨?_, rfl, ?_⟩
  · simp [createNorm, saveDoc, hany]
  · unfold findOneNorm
    rw [hcase]
    rw [find?_append_of_all_neg _ db _ ?later]
    · simp [newUserDocNorm, newUserDoc]
    case later =>
      intro u hu
      simp only [List.all_eq_true, bne_iff_ne, ne_eq] at hfresh
      simp [newUserDocNorm, newUserDoc, hfresh u hu]

/-- Witness for C8: creating with identity key "Alice@Example.COM" stores
it case-folded, and the lookup key "alice@example.com" (differing only in
case) finds the created account. -/
theorem identityKey_case_normalized_witness :
    (createNorm [] "u1"
        { name := "Alice", email := "Alice@Example.COM", password := "secret99" }).2 =
      [newUserDocNorm "u1"
        { name := "Alice", email := "Alice@Example.COM", password := "secret99" }] ∧
    findOneNorm
        [newUserDocNorm "u1"
          { name := "Alice", email := "Alice@Example.COM", password := "secret99" }]
        "alice@example.com" =
      some (newUserDocNorm "u1"
        { name := "Alice", email := "Alice@Example.COM", password := "secret99" }) := by
  have h := identityKey_case_normalized [] "u1"
    { name := "Alice", email := "Alice@Example.COM", password := "secret99" }
    "alice@example.com" rfl (by decide)
  exact ⟨h.1, h.2.2⟩

end AuthService
